import Mathlib

/-!
Shallow embedding of the inbound message-processing pipeline of the
openclaw-fluxer-extension repository (src/src/gateway.ts, with the outbound
helpers of the unnamed rest module), together with theorems checking the
natural-language specification against it.

The handler registered on `MessageCreate` in `monitorFluxerProvider` is
modelled as a pure function from the session state (fixed at
`monitorFluxerProvider` startup), an environment of external-collaborator
behaviours, and the inbound message, to the list of side effects the handler
performs plus the control-flow outcome (which `return` statement, or a crash,
ends the invocation).  External collaborator calls that may be absent or may
throw are modelled with `Option` (presence) and `Res` (normal result vs
thrown exception).
-/

namespace Fluxer

/-- Result of calling an external collaborator: a normal return value, or a
thrown exception (the thrown value itself is irrelevant to control flow). -/
inductive Res (α : Type) where
  | ok : α → Res α
  | err : Res α
deriving DecidableEq, Repr

/-- One entry of `msg.attachments` (gateway.ts line 92). -/
structure Attachment where
  url : String
  contentType : Option String
  filename : Option String
deriving DecidableEq, Repr

/-- The decoded `MessageCreate` payload used by the handler (gateway.ts
lines 84-93). -/
structure Msg where
  id : String
  channelId : String
  content : String
  authorId : String
  authorUsername : String
  authorBot : Bool
  guildId : Option String
  timestamp : Option String
  referencedMessageId : Option String
  attachments : List Attachment
deriving DecidableEq, Repr

/-- The configuration keys read from `cfg.channels.fluxer` (gateway.ts lines
42-44, 145, 177, 274).  `none` models an absent key, resolved through the
source's `??` defaults. -/
structure FluxerCfg where
  dmPolicy : Option String
  allowFrom : List String
  groupPolicy : Option String
  replyToMode : Option String
  mediaMaxMb : Option Nat
deriving DecidableEq, Repr

/-- Result of `core.channel.routing.resolveAgentRoute` (gateway.ts 192-201). -/
structure Route where
  sessionKey : String
  accountId : Option String
deriving DecidableEq, Repr

/-- Result of `core.channel.media.fetchRemoteMedia` (gateway.ts 172); the
binary buffer is irrelevant to control flow and not modelled. -/
structure Fetched where
  contentType : Option String
deriving DecidableEq, Repr

/-- Result of `core.channel.pairing.upsertPairingRequest` (gateway.ts 119). -/
structure PairReply where
  code : String
  created : Bool
deriving DecidableEq, Repr

/-- Behaviour of the external collaborators and of the clock during one
handler invocation.  A field of type `Option (Res _)` is `none` when the
capability is absent (the source's presence check fails), `some .err` when
the call throws, and `some (.ok _)` when it returns normally.
`parseTs` models `new Date(str).getTime()`: `none` models `NaN`. -/
structure Env where
  now : Int
  parseTs : String → Option Int
  mentionConfigMatch : Option (Res Bool)
  fetchRemoteMedia : Option (Res Fetched)
  saveMediaBuffer : Option (Res String)
  resolveAgentRoute : Option (Res Route)
  resolveEnvelopeFormatOptions : Option (Res Unit)
  formatAgentEnvelope : Option (Res String)
  dispatchBlock : Option (Res Unit)
  dispatchMsg : Option (Res Unit)
  enqueueSystemEvent : Option (Res Unit)
  upsertPairingRequest : Option (Res PairReply)

/-- Session-scoped state of `monitorFluxerProvider`: fixed before any message
is handled (gateway.ts lines 37-61). `effectiveAllow` is the merged allowlist
computed once at startup. -/
structure Session where
  selfUserId : Option String
  startupMs : Int
  accountId : String
  cfg : FluxerCfg
  effectiveAllow : List String
deriving DecidableEq, Repr

/-- The world outside the session: the environment plus the *current*
contents of the external pairing store's allowlist.  The handler receives the
whole world; which parts it actually reads is the subject of the caching
claims. -/
structure World where
  env : Env
  storeLive : List String

/-- `startupGraceMs` (gateway.ts line 39). -/
def startupGraceMs : Int := 10000

/-- `fluxerConfig.dm?.policy ?? "pairing"` (gateway.ts line 43). -/
def dmPolicyOf (c : FluxerCfg) : String := c.dmPolicy.getD "pairing"

/-- `fluxerConfig.groupPolicy ?? "open"` (gateway.ts line 145). -/
def groupPolicyOf (c : FluxerCfg) : String := c.groupPolicy.getD "open"

/-- `fluxerConfig.replyToMode ?? "off"` (gateway.ts line 274). -/
def replyToModeOf (c : FluxerCfg) : String := c.replyToMode.getD "off"

/-- `(fluxerConfig.mediaMaxMb ?? 25) * 1024 * 1024` (gateway.ts line 177). -/
def mediaMaxBytes (c : FluxerCfg) : Nat := c.mediaMaxMb.getD 25 * 1024 * 1024

/-- The value of `storeAllowFrom` after the startup read (gateway.ts 47-54):
the store result on success, `[]` when the capability is absent or the read
throws (the `catch` ignores the error). -/
def storeReadResult : Option (Res (List String)) → List String
  | some (.ok l) => l
  | some .err => []
  | none => []

/-- `effectiveAllowFrom = [...configAllowFrom, ...storeAllowFrom]`
(gateway.ts line 55), from the single startup store read. -/
def effectiveAllowFrom (c : FluxerCfg) (storeRead : Option (Res (List String))) :
    List String :=
  c.allowFrom ++ storeReadResult storeRead

/-- The session state as set up by `monitorFluxerProvider` before connecting:
self id (set at `Ready`), startup clock, account id, config, and the merged
allowlist snapshot. -/
def initSession (c : FluxerCfg) (selfId : Option String) (startup : Int)
    (acct : String) (storeRead : Option (Res (List String))) : Session :=
  ⟨selfId, startup, acct, c, effectiveAllowFrom c storeRead⟩

/-- `isAllowed` (gateway.ts 57-61): some entry equals the sender id or is the
wildcard `"*"`. -/
def isAllowed (allow : List String) (senderId : String) : Bool :=
  allow.any fun entry => entry == senderId || entry == "*"

/-- `msg.author.id === selfUserId` (gateway.ts line 96); false while
`selfUserId` is still `null`. -/
def isSelf (s : Session) (m : Msg) : Bool :=
  match s.selfUserId with
  | some id => m.authorId == id
  | none => false

/-- `msg.timestamp ? new Date(msg.timestamp).getTime() : Date.now()`
(gateway.ts line 100).  `none` models a `NaN` parse. -/
def eventTsOf (env : Env) (m : Msg) : Option Int :=
  match m.timestamp with
  | none => some env.now
  | some str => env.parseTs str

/-- `eventTs < startupMs - startupGraceMs` (gateway.ts line 101).  When the
timestamp parsed to `NaN` the JS comparison is false. -/
def isStale (s : Session) (env : Env) (m : Msg) : Bool :=
  match eventTsOf env m with
  | none => false
  | some t => decide (t < s.startupMs - startupGraceMs)

/-- Leading-whitespace removal, used to build the JS `trim` and the `\s*`
part of the mention-stripping regex. -/
def dropLeadingWs : List Char → List Char
  | [] => []
  | c :: rest => if c.isWhitespace then dropLeadingWs rest else c :: rest

/-- JS `String.prototype.trim`: strip whitespace from both ends. -/
def jsTrim (s : String) : String :=
  String.mk (List.reverse (dropLeadingWs (List.reverse (dropLeadingWs s.data))))

/-- JS `String.prototype.slice(0, n)`. -/
def jsSlice (s : String) (n : Nat) : String := String.mk (s.data.take n)

/-- Boolean prefix test on character lists. -/
def leadsWith : List Char → List Char → Bool
  | [], _ => true
  | _ :: _, [] => false
  | a :: as, b :: bs => a == b && leadsWith as bs

/-- Boolean infix test on character lists. -/
def hasInfix (pat : List Char) : List Char → Bool
  | [] => pat.isEmpty
  | c :: rest => leadsWith pat (c :: rest) || hasInfix pat rest

/-- The test of `new RegExp(`<@!?id>`)` against the body (gateway.ts
149-150): the text contains `<@id>` or `<@!id>` (ids are literal, without
regex metacharacters). -/
def mentionMatch (selfId body : String) : Bool :=
  hasInfix ('<' :: '@' :: (selfId.data ++ ['>'])) body.data ||
    hasInfix ('<' :: '@' :: '!' :: (selfId.data ++ ['>'])) body.data

/-- `hasSelfMention` (gateway.ts 149-150): false while self identity is
unknown. -/
def hasSelfMentionB (s : Session) (body : String) : Bool :=
  match s.selfUserId with
  | none => false
  | some id => mentionMatch id body

/-- `hasConfigMention` (gateway.ts 153-159): false when the mention
collaborator is absent or throws. -/
def configMentionB (env : Env) : Bool :=
  match env.mentionConfigMatch with
  | some (.ok b) => b
  | some .err => false
  | none => false

/-- One pass of `bodyText.replace(new RegExp(`<@!?id>\\s*`, "g"), "")`
(gateway.ts line 215), on character lists with explicit fuel (the fuel is the
list length, enough because every step consumes at least one character). -/
def stripMentionFuel (selfId : List Char) : Nat → List Char → List Char
  | _, [] => []
  | 0, l => l
  | fuel + 1, c :: rest =>
    let p2 := '<' :: '@' :: '!' :: (selfId ++ ['>'])
    let p1 := '<' :: '@' :: (selfId ++ ['>'])
    if leadsWith p2 (c :: rest) then
      stripMentionFuel selfId fuel (dropLeadingWs (rest.drop (p2.length - 1)))
    else if leadsWith p1 (c :: rest) then
      stripMentionFuel selfId fuel (dropLeadingWs (rest.drop (p1.length - 1)))
    else c :: stripMentionFuel selfId fuel rest

/-- `cleanBody` (gateway.ts 213-216): strip self mentions and trim when the
self id is known, otherwise the body unchanged. -/
def cleanBodyOf (s : Session) (bodyText : String) : String :=
  match s.selfUserId with
  | none => bodyText
  | some id =>
    jsTrim (String.mk (stripMentionFuel id.data bodyText.data.length bodyText.data))

/-- `fromLabel` (gateway.ts line 219). -/
def fromLabelOf (isDm : Bool) (senderName channelId : String) : String :=
  if isDm then senderName else "#" ++ channelId

/-- The normalized context payload `ctxPayload` (gateway.ts 246-271). -/
structure CtxPayload where
  Body : String
  BodyForAgent : String
  RawBody : String
  CommandBody : String
  From : String
  To : String
  SessionKey : String
  AccountId : String
  ChatType : String
  ConversationLabel : String
  SenderName : String
  SenderId : String
  SenderUsername : String
  GroupSubject : Option String
  Provider : String
  Surface : String
  WasMentioned : Option Bool
  MessageSid : String
  ReplyToId : Option String
  Timestamp : Option Int
  MediaPath : Option String
  MediaUrl : Option String
  OriginatingChannel : String
  OriginatingTo : String
deriving DecidableEq, Repr

/-- The observable side effects a handler invocation can perform, in
program order. -/
inductive Effect where
  | upsertPairing (senderId senderName : String)
  | sendMsg (channelId text : String) (replyTo mediaUrl : Option String)
  | triggerTyping (channelId : String)
  | stopTyping
  | fetchMedia (url : String)
  | saveMedia (contentType : Option String) (direction : String) (maxBytes : Nat)
  | dispatchBlockAttempt (ctx : CtxPayload)
  | dispatchMsgAttempt (ctx : CtxPayload)
  | enqueueSystemEvent (text sessionKey : String)
  | logInfo (text : String)
  | logWarn (text : String)
deriving DecidableEq, Repr

/-- Which exit ends the handler invocation: one constructor per `return`
site of the source, plus `crashed` for an exception that reaches the outer
`catch` (whose `stopTyping()` reference is out of scope there, so the catch
itself throws a `ReferenceError` that escapes the handler). -/
inductive Outcome where
  | selfMsg
  | botMsg
  | stale
  | emptyBody
  | dmDisabled
  | dmDenied
  | groupDisabled
  | noMention
  | dispatchedA
  | dispatchedB
  | finishedC
  | crashed
deriving DecidableEq, Repr

/-- The instructional pairing reply (gateway.ts 125-132). -/
def pairingInstructions (code : String) : String :=
  "🦐 OpenClaw: access not configured.\n\nPairing code: `" ++ code ++
    "`\n\nAsk the bot owner to approve:\n`openclaw pairing approve fluxer <code>`"

/-- Effects of the not-allowed `pairing` branch (gateway.ts 116-138): upsert
the pairing request if the capability exists; on a newly created request send
the instructional reply; a thrown error is caught and logged. -/
def pairingStep (env : Env) (channelId senderId senderName : String) : List Effect :=
  match env.upsertPairingRequest with
  | none => []
  | some .err => [.upsertPairing senderId senderName, .logWarn "fluxer: pairing reply failed"]
  | some (.ok r) =>
    .upsertPairing senderId senderName ::
      (if r.created then [.sendMsg channelId (pairingInstructions r.code) none none] else [])

/-- Media materialization (gateway.ts 166-184): first attachment only, both
media capabilities required, failures logged and swallowed.  Returns the
effects and the resulting `mediaPath`. -/
def mediaStep (env : Env) (c : FluxerCfg) (atts : List Attachment) :
    List Effect × Option String :=
  match atts with
  | [] => ([], none)
  | att :: _ =>
    match env.fetchRemoteMedia, env.saveMediaBuffer with
    | some fr, some sv =>
      match fr with
      | .err => ([.fetchMedia att.url, .logWarn "fluxer: media download failed"], none)
      | .ok f =>
        let ct := match f.contentType with
          | some c => some c
          | none => att.contentType
        match sv with
        | .err =>
          ([.fetchMedia att.url, .saveMedia ct "inbound" (mediaMaxBytes c),
            .logWarn "fluxer: media download failed"], none)
        | .ok p =>
          ([.fetchMedia att.url, .saveMedia ct "inbound" (mediaMaxBytes c)], some p)
    | some _, none => ([], none)
    | none, some _ => ([], none)
    | none, none => ([], none)

/-- The deterministic fallback session key (gateway.ts 204-206, 209). -/
def fallbackSessionKey (isDm : Bool) (channelId : String) : String :=
  if isDm then "agent:main:main" else "agent:main:fluxer:channel:" ++ channelId

/-- Session routing (gateway.ts 187-210): delegate when available, fall back
to the deterministic key on absence or exception.  Returns the session key
and the route's account id (when resolution succeeded). -/
def routeStep (env : Env) (isDm : Bool) (channelId : String) :
    String × Option String :=
  match env.resolveAgentRoute with
  | some (.ok r) => (r.sessionKey, r.accountId)
  | some .err => (fallbackSessionKey isDm channelId, none)
  | none => (fallbackSessionKey isDm channelId, none)

/-- Envelope body formatting (gateway.ts 237-244): `.err` when either
collaborator call throws (reaching the outer catch), otherwise the formatted
body — the collaborator's result or the inline fallback template. -/
def envelopeFormat (env : Env) (fromLabel cleanBody : String) : Res String :=
  match env.resolveEnvelopeFormatOptions with
  | some .err => .err
  | _ =>
    match env.formatAgentEnvelope with
    | some .err => .err
    | some (.ok b) => .ok b
    | none => .ok ("[Fluxer message from " ++ fromLabel ++ "]\n" ++ cleanBody)

/-- The reply-target id used by the delivery callbacks (gateway.ts 282 and
317): the processed message's own id when `replyToMode` is enabled. -/
def deliverReplyTo (mode messageId : String) : Option String :=
  if mode != "off" then some messageId else none

/-- Construction of `ctxPayload` (gateway.ts 246-271). -/
def buildCtx (isDm : Bool) (m : Msg) (formattedBody cleanBody bodyText
    sessionKey accountId fromLabel : String) (eventTs : Option Int)
    (mediaPath : Option String) : CtxPayload :=
  { Body := formattedBody
    BodyForAgent := cleanBody
    RawBody := bodyText
    CommandBody := cleanBody
    From := if isDm then "fluxer:" ++ m.authorId else "fluxer:channel:" ++ m.channelId
    To := m.channelId
    SessionKey := sessionKey
    AccountId := accountId
    ChatType := if isDm then "direct" else "channel"
    ConversationLabel := fromLabel
    SenderName := m.authorUsername
    SenderId := m.authorId
    SenderUsername := m.authorUsername
    GroupSubject := if isDm then none else some m.channelId
    Provider := "fluxer"
    Surface := "fluxer"
    WasMentioned := if isDm then none else some true
    MessageSid := m.id
    ReplyToId := m.referencedMessageId
    Timestamp := eventTs
    MediaPath := mediaPath
    MediaUrl := mediaPath
    OriginatingChannel := "fluxer"
    OriginatingTo := m.channelId }

/-- Text of the system-visibility events (gateway.ts 299 and 340), with the
truncation length as a parameter (160 for the group event, 500 for the last
resort). -/
def sysEventText (senderName cleanBody : String) (n : Nat) : String :=
  "Fluxer message from " ++ senderName ++ ": " ++ jsSlice cleanBody n

/-- The last-resort stage (gateway.ts 337-348), without its `finally`. -/
def stageCEffects (env : Env) (senderName cleanBody sessionKey : String) :
    List Effect :=
  match env.enqueueSystemEvent with
  | none => [.logWarn ("fluxer: no dispatch mechanism available for message from " ++ senderName)]
  | some (.ok _) =>
    [.enqueueSystemEvent (sysEventText senderName cleanBody 500) sessionKey,
     .logInfo ("fluxer: injected system event for " ++ sessionKey)]
  | some .err =>
    [.enqueueSystemEvent (sysEventText senderName cleanBody 500) sessionKey,
     .logWarn "fluxer: last resort dispatch failed"]

/-- The fallback dispatcher stage and everything after it (gateway.ts
310-351): stage b on success stops typing and returns; on failure or absence
stage c runs and its `finally` stops typing. -/
def stageB (env : Env) (channelId senderName cleanBody sessionKey : String)
    (ctx : CtxPayload) : List Effect × Outcome :=
  match env.dispatchMsg with
  | some (.ok _) =>
    ([.dispatchMsgAttempt ctx, .stopTyping,
      .logInfo ("fluxer: dispatched reply (fallback) to " ++ channelId)], .dispatchedB)
  | some .err =>
    ([.dispatchMsgAttempt ctx, .logWarn "fluxer: fallback dispatch failed"] ++
       stageCEffects env senderName cleanBody sessionKey ++ [.stopTyping], .finishedC)
  | none =>
    (stageCEffects env senderName cleanBody sessionKey ++ [.stopTyping], .finishedC)

/-- The staged dispatch chain (gateway.ts 273-351).  Stage a on success stops
typing, logs, and for group messages additionally enqueues the truncated
system-visibility event — a throw from that enqueue is caught by the stage-a
`catch` and falls through to stage b (a second `stopTyping` then follows, the
source's guard being idempotent). -/
def dispatchPhase (env : Env) (isDm : Bool)
    (channelId senderName cleanBody sessionKey : String) (ctx : CtxPayload) :
    List Effect × Outcome :=
  match env.dispatchBlock with
  | some (.ok _) =>
    let base := [Effect.dispatchBlockAttempt ctx, Effect.stopTyping,
      Effect.logInfo ("fluxer: dispatched reply to " ++ channelId)]
    if isDm then (base, .dispatchedA)
    else
      match env.enqueueSystemEvent with
      | none => (base, .dispatchedA)
      | some (.ok _) =>
        (base ++ [.enqueueSystemEvent (sysEventText senderName cleanBody 160) sessionKey],
         .dispatchedA)
      | some .err =>
        (base ++
           [.enqueueSystemEvent (sysEventText senderName cleanBody 160) sessionKey,
            .logWarn "fluxer: buffered dispatch failed"] ++
           (stageB env channelId senderName cleanBody sessionKey ctx).1,
         (stageB env channelId senderName cleanBody sessionKey ctx).2)
  | some .err =>
    ([.dispatchBlockAttempt ctx, .logWarn "fluxer: buffered dispatch failed"] ++
       (stageB env channelId senderName cleanBody sessionKey ctx).1,
     (stageB env channelId senderName cleanBody sessionKey ctx).2)
  | none => stageB env channelId senderName cleanBody sessionKey ctx

/-- Effects accumulated before envelope formatting: media materialization
then the immediate typing trigger (gateway.ts 166-227). -/
def preEffects (s : Session) (env : Env) (m : Msg) : List Effect :=
  (mediaStep env s.cfg m.attachments).1 ++ [.triggerTyping m.channelId]

/-- The dispatch part of the main phase, given the formatted body. -/
def mainDispatch (s : Session) (env : Env) (m : Msg) (isDm : Bool)
    (bodyText : String) (eventTs : Option Int) (formattedBody : String) :
    List Effect × Outcome :=
  dispatchPhase env isDm m.channelId m.authorUsername (cleanBodyOf s bodyText)
    (routeStep env isDm m.channelId).1
    (buildCtx isDm m formattedBody (cleanBodyOf s bodyText) bodyText
      (routeStep env isDm m.channelId).1
      ((routeStep env isDm m.channelId).2.getD s.accountId)
      (fromLabelOf isDm m.authorUsername m.channelId) eventTs
      (mediaStep env s.cfg m.attachments).2)

/-- Everything after the gates (gateway.ts 166-351): media, routing, typing
activation, envelope construction, staged dispatch.  A throw from the
envelope-format collaborators reaches the outer catch, where the
`stopTyping()` reference is out of scope: the invocation crashes with typing
never stopped. -/
def mainPhase (s : Session) (env : Env) (m : Msg) (isDm : Bool)
    (bodyText : String) (eventTs : Option Int) : List Effect × Outcome :=
  match envelopeFormat env (fromLabelOf isDm m.authorUsername m.channelId)
      (cleanBodyOf s bodyText) with
  | .err => (preEffects s env m, .crashed)
  | .ok fb =>
    (preEffects s env m ++ (mainDispatch s env m isDm bodyText eventTs fb).1,
     (mainDispatch s env m isDm bodyText eventTs fb).2)

/-- The `MessageCreate` handler (gateway.ts 82-357) as a function from
session, environment and message to performed effects and outcome. -/
def processMessage (s : Session) (env : Env) (m : Msg) : List Effect × Outcome :=
  if isSelf s m then ([], .selfMsg)
  else if m.authorBot then ([], .botMsg)
  else if isStale s env m then ([], .stale)
  else if jsTrim m.content == "" && m.attachments.isEmpty then ([], .emptyBody)
  else if m.guildId.isNone && (dmPolicyOf s.cfg == "disabled") then ([], .dmDisabled)
  else if m.guildId.isNone && (dmPolicyOf s.cfg != "open") &&
      !(isAllowed s.effectiveAllow m.authorId) then
    ((if dmPolicyOf s.cfg == "pairing" then
        pairingStep env m.channelId m.authorId m.authorUsername
      else []), .dmDenied)
  else if !(m.guildId.isNone) && (groupPolicyOf s.cfg == "disabled") then
    ([], .groupDisabled)
  else if !(m.guildId.isNone) && !(hasSelfMentionB s (jsTrim m.content)) &&
      !(configMentionB env) then
    ([], .noMention)
  else mainPhase s env m m.guildId.isNone (jsTrim m.content) (eventTsOf env m)

/-- The handler seen from the world: it receives the whole world but the
session's allowlist snapshot is the only allowlist it consults. -/
def processMessageW (s : Session) (w : World) (m : Msg) : List Effect × Outcome :=
  processMessage s w.env m

/-- The combined condition under which the handler passes every filter and
gate (self/bot, staleness, empty content, DM policy, group policy and
mention gating) and reaches the media/typing/dispatch phase. -/
def gatesPass (s : Session) (env : Env) (m : Msg) : Bool :=
  !(isSelf s m) && !m.authorBot && !(isStale s env m) &&
    !(jsTrim m.content == "" && m.attachments.isEmpty) &&
    (if m.guildId.isNone then
      (dmPolicyOf s.cfg != "disabled") &&
        ((dmPolicyOf s.cfg == "open") || isAllowed s.effectiveAllow m.authorId)
    else
      (groupPolicyOf s.cfg != "disabled") &&
        (hasSelfMentionB s (jsTrim m.content) || configMentionB env))

/-- Extract the context payload of a dispatch-attempt effect. -/
def ctxOfEffect : Effect → Option CtxPayload
  | .dispatchBlockAttempt c => some c
  | .dispatchMsgAttempt c => some c
  | _ => none

/-- The context payloads handed to the dispatch collaborators, in order. -/
def dispatchedCtxs (effs : List Effect) : List CtxPayload :=
  effs.filterMap ctxOfEffect

/-- Extract the url of a media-fetch effect. -/
def fetchUrlOf : Effect → Option String
  | .fetchMedia u => some u
  | _ => none

/-- Number of `stopTyping` invocations among the effects. -/
def stopCount (effs : List Effect) : Nat :=
  effs.countP fun e => match e with | .stopTyping => true | _ => false

/-- Number of outbound message sends among the effects. -/
def sendCount (effs : List Effect) : Nat :=
  effs.countP fun e => match e with | .sendMsg _ _ _ _ => true | _ => false


/-! ### Structural lemmas about the pipeline -/

/-- Stage b either dispatches or falls through to the last resort. -/
theorem stageB_outcome (env : Env) (channelId senderName cleanBody sessionKey : String)
    (ctx : CtxPayload) :
    (stageB env channelId senderName cleanBody sessionKey ctx).2 = .dispatchedB ∨
      (stageB env channelId senderName cleanBody sessionKey ctx).2 = .finishedC := by
  unfold stageB
  rcases env.dispatchMsg with _ | r
  · right; rfl
  · rcases r with _ | _
    · left; rfl
    · right; rfl

/-- The staged dispatch chain always ends in one of its three dispatch
outcomes. -/
theorem dispatchPhase_outcome (env : Env) (isDm : Bool)
    (channelId senderName cleanBody sessionKey : String) (ctx : CtxPayload) :
    (dispatchPhase env isDm channelId senderName cleanBody sessionKey ctx).2 = .dispatchedA ∨
      (dispatchPhase env isDm channelId senderName cleanBody sessionKey ctx).2 = .dispatchedB ∨
      (dispatchPhase env isDm channelId senderName cleanBody sessionKey ctx).2 = .finishedC := by
  unfold dispatchPhase
  rcases env.dispatchBlock with _ | r
  · rcases stageB_outcome env channelId senderName cleanBody sessionKey ctx with h | h
    · right; left; exact h
    · right; right; exact h
  · rcases r with _ | _
    · rcases hdm : isDm with _ | _
      · simp only [Bool.false_eq_true, if_false]
        rcases henq : env.enqueueSystemEvent with _ | r2
        · left; rfl
        · rcases r2 with _ | _
          · left; rfl
          · rcases stageB_outcome env channelId senderName cleanBody sessionKey ctx with h | h
            · right; left; exact h
            · right; right; exact h
      · left; rfl
    · rcases stageB_outcome env channelId senderName cleanBody sessionKey ctx with h | h
      · right; left; exact h
      · right; right; exact h

/-- The main phase ends dispatched, finished, or crashed. -/
theorem mainPhase_outcome (s : Session) (env : Env) (m : Msg) (isDm : Bool)
    (bodyText : String) (eventTs : Option Int) :
    (mainPhase s env m isDm bodyText eventTs).2 = .dispatchedA ∨
      (mainPhase s env m isDm bodyText eventTs).2 = .dispatchedB ∨
      (mainPhase s env m isDm bodyText eventTs).2 = .finishedC ∨
      (mainPhase s env m isDm bodyText eventTs).2 = .crashed := by
  unfold mainPhase
  rcases henv : envelopeFormat env (fromLabelOf isDm m.authorUsername m.channelId)
      (cleanBodyOf s bodyText) with fb | _
  · rcases dispatchPhase_outcome env isDm m.channelId m.authorUsername
        (cleanBodyOf s bodyText) (routeStep env isDm m.channelId).1
        (buildCtx isDm m fb (cleanBodyOf s bodyText) bodyText
          (routeStep env isDm m.channelId).1
          ((routeStep env isDm m.channelId).2.getD s.accountId)
          (fromLabelOf isDm m.authorUsername m.channelId) eventTs
          (mediaStep env s.cfg m.attachments).2) with h | h | h
    · left; exact h
    · right; left; exact h
    · right; right; left; exact h
  · right; right; right; rfl

/-- When every gate passes, the handler runs the main phase. -/
theorem processMessage_of_gatesPass (s : Session) (env : Env) (m : Msg)
    (h : gatesPass s env m = true) :
    processMessage s env m =
      mainPhase s env m m.guildId.isNone (jsTrim m.content) (eventTsOf env m) := by
  unfold gatesPass at h
  simp only [Bool.and_eq_true, Bool.not_eq_true'] at h
  obtain ⟨⟨⟨⟨h1, h2⟩, h3⟩, h4⟩, h5⟩ := h
  rcases hdm : m.guildId.isNone with _ | _ <;> rw [hdm] at h5 <;> simp at h5 <;>
    obtain ⟨h5a, h5b⟩ := h5
  · rcases h5b with hx | hx <;>
      simp +decide [processMessage, h1, h2, h3, h4, hdm, h5a, hx]
  · rcases h5b with hx | hx <;>
      simp +decide [processMessage, h1, h2, h3, h4, hdm, h5a, hx]

/-- `dispatchedCtxs` distributes over concatenation. -/
theorem dispatchedCtxs_append (a b : List Effect) :
    dispatchedCtxs (a ++ b) = dispatchedCtxs a ++ dispatchedCtxs b := by
  simp [dispatchedCtxs]

/-- The last-resort stage hands nothing to a dispatch collaborator. -/
theorem dispatchedCtxs_stageC (env : Env) (sn cb sk : String) :
    dispatchedCtxs (stageCEffects env sn cb sk) = [] := by
  unfold stageCEffects
  rcases env.enqueueSystemEvent with _ | r
  · rfl
  · rcases r with _ | _ <;> rfl

/-- Media materialization hands nothing to a dispatch collaborator. -/
theorem dispatchedCtxs_mediaStep (env : Env) (c : FluxerCfg) (atts : List Attachment) :
    dispatchedCtxs (mediaStep env c atts).1 = [] := by
  unfold mediaStep
  rcases atts with _ | ⟨att, rest⟩
  · rfl
  · rcases env.fetchRemoteMedia with _ | fr <;> rcases env.saveMediaBuffer with _ | sv
    · rfl
    · rfl
    · rfl
    · rcases fr with f | _
      · rcases sv with p | _ <;> rfl
      · rfl

/-- The pairing branch hands nothing to a dispatch collaborator. -/
theorem dispatchedCtxs_pairingStep (env : Env) (ch sid sn : String) :
    dispatchedCtxs (pairingStep env ch sid sn) = [] := by
  unfold pairingStep
  rcases env.upsertPairingRequest with _ | r
  · rfl
  · rcases r with r | _
    · rcases hcr : r.created with _ | _ <;>
        simp [hcr, dispatchedCtxs, ctxOfEffect]
    · rfl

/-- Every payload stage b hands to a dispatcher is the constructed context. -/
theorem stageB_ctxs (env : Env) (ch sn cb sk : String) (ctx : CtxPayload) :
    ∀ c ∈ dispatchedCtxs (stageB env ch sn cb sk ctx).1, c = ctx := by
  unfold stageB
  rcases env.dispatchMsg with _ | r
  · intro c hc
    rw [dispatchedCtxs_append, dispatchedCtxs_stageC] at hc
    simp [dispatchedCtxs, ctxOfEffect] at hc
  · rcases r with _ | _
    · intro c hc
      simp only [dispatchedCtxs, List.filterMap, ctxOfEffect] at hc
      simpa using hc
    · intro c hc
      rw [dispatchedCtxs_append, dispatchedCtxs_append, dispatchedCtxs_stageC] at hc
      simp only [dispatchedCtxs, List.filterMap, ctxOfEffect] at hc
      simpa using hc

/-- Every payload the dispatch chain hands to a dispatcher is the constructed
context. -/
theorem dispatchPhase_ctxs (env : Env) (isDm : Bool) (ch sn cb sk : String)
    (ctx : CtxPayload) :
    ∀ c ∈ dispatchedCtxs (dispatchPhase env isDm ch sn cb sk ctx).1, c = ctx := by
  unfold dispatchPhase
  rcases env.dispatchBlock with _ | r
  · exact stageB_ctxs env ch sn cb sk ctx
  · rcases r with _ | _
    · rcases isDm with _ | _
      · simp only [Bool.false_eq_true, if_false]
        rcases env.enqueueSystemEvent with _ | r2
        · simp [dispatchedCtxs, ctxOfEffect]
        · rcases r2 with _ | _
          · simp [dispatchedCtxs_append, dispatchedCtxs, ctxOfEffect]
          · intro c hc
            rw [dispatchedCtxs_append] at hc
            rcases List.mem_append.mp hc with hc | hc
            · simp only [dispatchedCtxs, List.filterMap, ctxOfEffect] at hc
              simpa using hc
            · exact stageB_ctxs env ch sn cb sk ctx c hc
      · simp [dispatchedCtxs, ctxOfEffect]
    · intro c hc
      rw [dispatchedCtxs_append] at hc
      rcases List.mem_append.mp hc with hc | hc
      · simp only [dispatchedCtxs, List.filterMap, ctxOfEffect] at hc
        simpa using hc
      · exact stageB_ctxs env ch sn cb sk ctx c hc

/-- Effects before envelope formatting contain no dispatch payloads. -/
theorem dispatchedCtxs_preEffects (s : Session) (env : Env) (m : Msg) :
    dispatchedCtxs (preEffects s env m) = [] := by
  unfold preEffects
  rw [dispatchedCtxs_append, dispatchedCtxs_mediaStep]
  rfl

/-- Fields of every payload the main phase hands to a dispatcher: the reply
target is the inbound referenced message, the media path is the media step's
result, the session key and account id come from routing. -/
theorem mainPhase_ctxs (s : Session) (env : Env) (m : Msg) (isDm : Bool)
    (bodyText : String) (eventTs : Option Int) :
    ∀ c ∈ dispatchedCtxs (mainPhase s env m isDm bodyText eventTs).1,
      c.ReplyToId = m.referencedMessageId ∧
        c.MediaPath = (mediaStep env s.cfg m.attachments).2 ∧
        c.SessionKey = (routeStep env isDm m.channelId).1 ∧
        c.AccountId = (routeStep env isDm m.channelId).2.getD s.accountId := by
  unfold mainPhase
  rcases henv : envelopeFormat env (fromLabelOf isDm m.authorUsername m.channelId)
      (cleanBodyOf s bodyText) with fb | _
  · intro c hc
    rw [dispatchedCtxs_append, dispatchedCtxs_preEffects] at hc
    rw [List.nil_append] at hc
    have hctx := dispatchPhase_ctxs env isDm m.channelId m.authorUsername
      (cleanBodyOf s bodyText) (routeStep env isDm m.channelId).1
      (buildCtx isDm m fb (cleanBodyOf s bodyText) bodyText
        (routeStep env isDm m.channelId).1
        ((routeStep env isDm m.channelId).2.getD s.accountId)
        (fromLabelOf isDm m.authorUsername m.channelId) eventTs
        (mediaStep env s.cfg m.attachments).2) c hc
    subst hctx
    exact ⟨rfl, rfl, rfl, rfl⟩
  · intro c hc
    rw [dispatchedCtxs_preEffects] at hc
    cases hc

/-- Fields of every payload the handler hands to a dispatcher. -/
theorem processMessage_ctxs (s : Session) (env : Env) (m : Msg) :
    ∀ c ∈ dispatchedCtxs (processMessage s env m).1,
      c.ReplyToId = m.referencedMessageId ∧
        c.MediaPath = (mediaStep env s.cfg m.attachments).2 := by
  intro c hc
  unfold processMessage at hc
  repeat' split at hc
  all_goals
    first
      | exact ⟨(mainPhase_ctxs s env m _ _ _ c hc).1,
          (mainPhase_ctxs s env m _ _ _ c hc).2.1⟩
      | (rw [dispatchedCtxs_pairingStep] at hc; cases hc)
      | simp [dispatchedCtxs] at hc

/-- A stale exit means the staleness test fired. -/
theorem isStale_of_stale (s : Session) (env : Env) (m : Msg)
    (h : (processMessage s env m).2 = .stale) : isStale s env m = true := by
  unfold processMessage at h
  repeat' split at h
  all_goals
    first
      | assumption
      | simp at h
      | (rcases mainPhase_outcome s env m m.guildId.isNone (jsTrim m.content)
            (eventTsOf env m) with hh | hh | hh | hh <;> rw [h] at hh <;> cases hh)

/-- Under passing gates the handler ends dispatched, finished, or crashed. -/
theorem processMessage_gates_outcome (s : Session) (env : Env) (m : Msg)
    (h : gatesPass s env m = true) :
    (processMessage s env m).2 = .dispatchedA ∨
      (processMessage s env m).2 = .dispatchedB ∨
      (processMessage s env m).2 = .finishedC ∨
      (processMessage s env m).2 = .crashed := by
  rw [processMessage_of_gatesPass s env m h]
  exact mainPhase_outcome s env m m.guildId.isNone (jsTrim m.content) (eventTsOf env m)

/-- The denial branch of the DM policy gate: a direct message from a
non-allowed sender under a policy that is neither `open` nor `disabled`. -/
theorem processMessage_denied (s : Session) (env : Env) (m : Msg)
    (h1 : isSelf s m = false) (h2 : m.authorBot = false)
    (h3 : isStale s env m = false)
    (h4 : (jsTrim m.content == "" && m.attachments.isEmpty) = false)
    (h5 : m.guildId = none) (h6 : dmPolicyOf s.cfg ≠ "disabled")
    (h7 : dmPolicyOf s.cfg ≠ "open")
    (h8 : isAllowed s.effectiveAllow m.authorId = false) :
    processMessage s env m =
      ((if dmPolicyOf s.cfg == "pairing" then
          pairingStep env m.channelId m.authorId m.authorUsername
        else []), .dmDenied) := by
  simp +decide [processMessage, h1, h2, h3, h4, h5, h6, h7, h8]

/-- An envelope-format crash requires one of the two format collaborators to
throw. -/
theorem envelopeFormat_err (env : Env) (f c : String)
    (h : envelopeFormat env f c = .err) :
    env.resolveEnvelopeFormatOptions = some .err ∨
      env.formatAgentEnvelope = some .err := by
  unfold envelopeFormat at h
  rcases ho : env.resolveEnvelopeFormatOptions with _ | r <;> rw [ho] at h
  · rcases hf : env.formatAgentEnvelope with _ | r2 <;> rw [hf] at h
    · cases h
    · rcases r2 with _ | _
      · cases h
      · right; rfl
  · rcases r with _ | _
    · rcases hf : env.formatAgentEnvelope with _ | r2 <;> rw [hf] at h
      · cases h
      · rcases r2 with _ | _
        · cases h
        · right; rfl
    · left; rfl

/-! ### Concrete fixtures -/

/-- An environment with every optional collaborator absent and a clock at 0. -/
def baseEnv : Env :=
  { now := 0
    parseTs := fun _ => none
    mentionConfigMatch := none
    fetchRemoteMedia := none
    saveMediaBuffer := none
    resolveAgentRoute := none
    resolveEnvelopeFormatOptions := none
    formatAgentEnvelope := none
    dispatchBlock := none
    dispatchMsg := none
    enqueueSystemEvent := none
    upsertPairingRequest := none }

/-- Configuration with an open DM policy and everything else defaulted. -/
def cfgOpen : FluxerCfg := ⟨some "open", [], none, none, none⟩

/-- Session with open DM policy, known self id `999`, startup at 0. -/
def sessOpen : Session := initSession cfgOpen (some "999") 0 "default" none

/-- A plain direct message from sender `u1`. -/
def msgA : Msg := ⟨"m1", "c1", "hello", "u1", "Uma", false, none, none, none, []⟩

/-! ### Claim C1 — allowlist freshness -/

/-- Configuration with DM policy `allowlist` and no static entries. -/
def cfgAllowlist : FluxerCfg := ⟨some "allowlist", [], none, none, none⟩

/-- Session whose single startup store read returned the empty list. -/
def sessSnapshotEmpty : Session :=
  initSession cfgAllowlist (some "999") 0 "default" (some (.ok []))

/-- A plain direct message from sender `alice`. -/
def msgAlice : Msg := ⟨"m1", "c1", "hi", "alice", "Alice", false, none, none, none, []⟩

/-- C1 (counterexample): the claim says the merged allowlist is re-read from
the pairing store during each message's processing, so an entry added after
session start is visible to the very next message.  Here the live store
contains `alice` while the message is processed, and a fresh merge would
allow her, yet the handler denies the message: it only consults the snapshot
taken at session start. -/
theorem C1_counterexample :
    processMessageW sessSnapshotEmpty ⟨baseEnv, ["alice"]⟩ msgAlice = ([], .dmDenied) ∧
      "alice" ∈ (World.mk baseEnv ["alice"]).storeLive ∧
      isAllowed (effectiveAllowFrom cfgAllowlist (some (.ok ["alice"]))) "alice" = true := by
  decide

/-- C1 (amended): the merged allowlist is computed once at session start —
configured entries followed by a single pairing-store read — and cached in
the session; the handler's behaviour is independent of the store's current
contents, so an entry added to the store after session start is not visible
to any message of the running session. -/
theorem C1_allowlist_snapshot (c : FluxerCfg) (selfId : Option String)
    (start : Int) (acct : String) (store : List String) (s : Session)
    (env : Env) (l1 l2 : List String) (m : Msg) :
    (initSession c selfId start acct (some (.ok store))).effectiveAllow =
        c.allowFrom ++ store ∧
      processMessageW s ⟨env, l1⟩ m = processMessageW s ⟨env, l2⟩ m :=
  ⟨rfl, rfl⟩

/-! ### Claim C2 — typing-stop release obligation -/

/-- Environment in which `formatAgentEnvelope` exists and throws. -/
def envFormatThrows : Env := { baseEnv with formatAgentEnvelope := some .err }

/-- C2 (code bug, failing input): the claim says the typing stop operation
runs exactly once before the handler returns on every exit path, including
exceptions escaping to the outer handler boundary. On this message typing is
activated, then `formatAgentEnvelope` throws; the outer catch's
`stopTyping()` call names a `const` that is block-scoped inside the `try` and
out of scope in the `catch`, so the catch itself throws a `ReferenceError`:
the invocation crashes with zero `stopTyping` invocations and the typing
keep-alive interval is never cleared. -/
theorem C2_typing_stop_missed :
    processMessage sessOpen envFormatThrows msgA = ([.triggerTyping "c1"], .crashed) ∧
      stopCount (processMessage sessOpen envFormatThrows msgA).1 = 0 := by
  decide

/-! ### Claim C5 — reply-target id in the envelope -/

/-- Configuration with open DM policy and `replyToMode` explicitly off. -/
def cfgReplyOff : FluxerCfg := ⟨some "open", [], none, some "off", none⟩

/-- Session over `cfgReplyOff`. -/
def sessReplyOff : Session := initSession cfgReplyOff (some "999") 0 "default" none

/-- Environment whose buffered block dispatcher exists and succeeds. -/
def envBlockOk : Env := { baseEnv with dispatchBlock := some (.ok ()) }

/-- A direct message that references message `r1`. -/
def msgRef : Msg := ⟨"m9", "c1", "hi", "u1", "Uma", false, none, none, some "r1", []⟩

/-- C5 (counterexample): the claim says the constructed dispatch envelope
carries no reply-target id when `replyToMode` is off.  With `replyToMode`
off, the envelope handed to the dispatcher still carries `ReplyToId = r1`,
the inbound referenced-message id. -/
theorem C5_counterexample :
    replyToModeOf cfgReplyOff = "off" ∧
      (dispatchedCtxs (processMessage sessReplyOff envBlockOk msgRef).1).map
          CtxPayload.ReplyToId = [some "r1"] := by
  decide

/-- C5 (amended): the constructed dispatch envelope always carries the
inbound message's referenced-message id as `ReplyToId`, regardless of
`replyToMode`; `replyToMode` instead gates the outbound delivery callback,
which attaches the processed message's own id as reply target only when the
mode is not `off`. -/
theorem C5_reply_target (s : Session) (env : Env) (m : Msg) (mid : String) :
    (∀ c ∈ dispatchedCtxs (processMessage s env m).1,
        c.ReplyToId = m.referencedMessageId) ∧
      (replyToModeOf s.cfg = "off" → deliverReplyTo (replyToModeOf s.cfg) mid = none) ∧
      (replyToModeOf s.cfg ≠ "off" →
        deliverReplyTo (replyToModeOf s.cfg) mid = some mid) := by
  refine ⟨fun c hc => (processMessage_ctxs s env m c hc).1, ?_, ?_⟩
  · intro h
    simp [deliverReplyTo, h]
  · intro h
    simp [deliverReplyTo, bne_iff_ne, h]

/-- C5 (witness): the amended statement applied to the concrete fixture. -/
theorem C5_reply_target_witness :
    (∀ c ∈ dispatchedCtxs (processMessage sessReplyOff envBlockOk msgRef).1,
        c.ReplyToId = msgRef.referencedMessageId) ∧
      deliverReplyTo (replyToModeOf sessReplyOff.cfg) "m9" = none :=
  ⟨(C5_reply_target sessReplyOff envBlockOk msgRef "m9").1,
   (C5_reply_target sessReplyOff envBlockOk msgRef "m9").2.1 rfl⟩

/-! ### Claim C4 — staleness filter precedes policy -/

/-- C4: a message whose timestamp parses to a time before session start
minus the grace window terminates silently before any policy evaluation:
the handler performs no effects at all — in particular it never calls
`upsertPairingRequest` — and exits through one of the pre-policy filters
(self, bot, or staleness). -/
theorem C4_stale_silent (s : Session) (env : Env) (m : Msg) (ts : String) (t : Int)
    (hts : m.timestamp = some ts) (hparse : env.parseTs ts = some t)
    (hold : t < s.startupMs - startupGraceMs) :
    (processMessage s env m).1 = [] ∧
      ((processMessage s env m).2 = .selfMsg ∨ (processMessage s env m).2 = .botMsg ∨
        (processMessage s env m).2 = .stale) := by
  have hev : eventTsOf env m = some t := by simp [eventTsOf, hts, hparse]
  have hstale : isStale s env m = true := by simp [isStale, hev, hold]
  rcases h1 : isSelf s m with _ | _ <;> rcases h2 : m.authorBot with _ | _ <;>
    simp [processMessage, h1, h2, hstale]

/-- Environment whose timestamp parser always yields a time far in the past. -/
def envStaleParse : Env := { baseEnv with parseTs := fun _ => some (-20000) }

/-- A message carrying a timestamp string. -/
def msgOld : Msg :=
  ⟨"m1", "c1", "hello", "u1", "Uma", false, none, some "2001-09-09T01:46:40Z", none, []⟩

/-- C4 (witness): the statement applied to a concrete stale message. -/
theorem C4_stale_silent_witness :
    (processMessage sessOpen envStaleParse msgOld).1 = [] ∧
      ((processMessage sessOpen envStaleParse msgOld).2 = .selfMsg ∨
        (processMessage sessOpen envStaleParse msgOld).2 = .botMsg ∨
        (processMessage sessOpen envStaleParse msgOld).2 = .stale) :=
  C4_stale_silent sessOpen envStaleParse msgOld "2001-09-09T01:46:40Z" (-20000)
    rfl rfl (by decide)

/-! ### Claim C10 — absent or unparsable timestamps are never stale -/

/-- C10: when the timestamp field is absent the event time is the handler's
current clock reading, so (the session having started no later than the
handler runs) the staleness filter does not fire; and a timestamp string
that parses to NaN is never classified stale, because the JS comparison
`NaN < bound` is false.  Either way the handler does not exit through the
staleness filter. -/
theorem C10_timestamp_fallback (s : Session) (env : Env) (m : Msg) :
    (m.timestamp = none → s.startupMs ≤ env.now →
        eventTsOf env m = some env.now ∧ isStale s env m = false ∧
          (processMessage s env m).2 ≠ .stale) ∧
      (∀ ts, m.timestamp = some ts → env.parseTs ts = none →
        isStale s env m = false ∧ (processMessage s env m).2 ≠ .stale) := by
  constructor
  · intro hts hle
    have hev : eventTsOf env m = some env.now := by simp [eventTsOf, hts]
    have hst : isStale s env m = false := by
      simp only [isStale, hev, decide_eq_false_iff_not, not_lt, startupGraceMs]
      omega
    refine ⟨hev, hst, fun hc => ?_⟩
    rw [isStale_of_stale s env m hc] at hst
    cases hst
  · intro ts hts hnan
    have hev : eventTsOf env m = none := by simp [eventTsOf, hts, hnan]
    have hst : isStale s env m = false := by simp [isStale, hev]
    refine ⟨hst, fun hc => ?_⟩
    rw [isStale_of_stale s env m hc] at hst
    cases hst

/-- A message carrying a timestamp string (parsed as NaN by `baseEnv`). -/
def msgBadTs : Msg :=
  ⟨"m1", "c1", "hello", "u1", "Uma", false, none, some "not-a-date", none, []⟩

/-- C10 (witness): the statement applied to a timestamp-less message and to
a message whose timestamp parses to NaN. -/
theorem C10_timestamp_fallback_witness :
    (eventTsOf baseEnv msgA = some baseEnv.now ∧ isStale sessOpen baseEnv msgA = false ∧
        (processMessage sessOpen baseEnv msgA).2 ≠ .stale) ∧
      (isStale sessOpen baseEnv msgBadTs = false ∧
        (processMessage sessOpen baseEnv msgBadTs).2 ≠ .stale) :=
  ⟨(C10_timestamp_fallback sessOpen baseEnv msgA).1 rfl (by decide),
   (C10_timestamp_fallback sessOpen baseEnv msgBadTs).2 "not-a-date" rfl rfl⟩

/-! ### Claim C6 — group mention gating -/

/-- `isAllowed` holds exactly when the sender or the wildcard is a member. -/
theorem isAllowed_iff (l : List String) (x : String) :
    isAllowed l x = true ↔ (x ∈ l ∨ "*" ∈ l) := by
  unfold isAllowed
  simp only [List.any_eq_true, Bool.or_eq_true, beq_iff_eq]
  constructor
  · rintro ⟨e, he, rfl | rfl⟩
    · exact Or.inl he
    · exact Or.inr he
  · rintro (hx | hw)
    · exact ⟨x, hx, Or.inl rfl⟩
    · exact ⟨"*", hw, Or.inr rfl⟩

/-- C6: for a group message under `open` group policy, when the text matches
neither the adapter's own identity mention pattern nor any configured mention
pattern, the handler exits at the mention gate with no effects (zero dispatch
attempts); and while self-identity is unknown the identity-based match
evaluates to false, with the configured-pattern check still deciding whether
processing proceeds. -/
theorem C6_group_mention_gate (s : Session) (env : Env) (m : Msg) (g : String)
    (h1 : isSelf s m = false) (h2 : m.authorBot = false)
    (h3 : isStale s env m = false)
    (h4 : (jsTrim m.content == "" && m.attachments.isEmpty) = false)
    (hg : m.guildId = some g) (hgp : groupPolicyOf s.cfg = "open") :
    (hasSelfMentionB s (jsTrim m.content) = false → configMentionB env = false →
        processMessage s env m = ([], .noMention)) ∧
      (s.selfUserId = none →
        hasSelfMentionB s (jsTrim m.content) = false ∧
          (configMentionB env = true → (processMessage s env m).2 ≠ .noMention)) := by
  constructor
  · intro hm hc
    simp +decide [processMessage, h1, h2, h3, h4, hg, hgp, hm, hc]
  · intro hnone
    have hsm : hasSelfMentionB s (jsTrim m.content) = false := by
      simp [hasSelfMentionB, hnone]
    refine ⟨hsm, fun hcm => ?_⟩
    have hgate : gatesPass s env m = true := by
      simp +decide [gatesPass, h1, h2, h3, h4, hg, hgp, hcm]
    rcases processMessage_gates_outcome s env m hgate with h | h | h | h <;> simp [h]

/-- A group (guild) message with no mention in the text. -/
def msgGroup : Msg :=
  ⟨"m2", "c2", "hello there", "u1", "Uma", false, some "g1", none, none, []⟩

/-- Session with open policies whose self identity is not yet known. -/
def sessNoSelf : Session := initSession cfgOpen none 0 "default" none

/-- C6 (witness): the statement applied to a concrete group message in a
session whose self identity is unknown and whose mention collaborator is
absent. -/
theorem C6_group_mention_gate_witness :
    (hasSelfMentionB sessNoSelf (jsTrim msgGroup.content) = false →
        configMentionB baseEnv = false →
        processMessage sessNoSelf baseEnv msgGroup = ([], .noMention)) ∧
      (sessNoSelf.selfUserId = none →
        hasSelfMentionB sessNoSelf (jsTrim msgGroup.content) = false ∧
          (configMentionB baseEnv = true →
            (processMessage sessNoSelf baseEnv msgGroup).2 ≠ .noMention)) :=
  C6_group_mention_gate sessNoSelf baseEnv msgGroup "g1" (by decide) (by decide)
    (by decide) (by decide) rfl rfl

/-! ### Claim C7 — allowlist union semantics -/

/-- C7: for a direct message under `allowlist` policy, access is granted iff
the sender id is in the union of the configured entries and the store
entries, or the wildcard is in that union; an entry present only in the
store still grants access; and (entries being compared by plain string
equality) the handler denies exactly the non-members. -/
theorem C7_allowlist_union (c : FluxerCfg) (store : List String) (s : Session)
    (env : Env) (m : Msg)
    (heff : s.effectiveAllow = effectiveAllowFrom c (some (.ok store)))
    (hpol : dmPolicyOf s.cfg = "allowlist")
    (h1 : isSelf s m = false) (h2 : m.authorBot = false)
    (h3 : isStale s env m = false)
    (h4 : (jsTrim m.content == "" && m.attachments.isEmpty) = false)
    (hg : m.guildId = none) :
    (isAllowed (effectiveAllowFrom c (some (.ok store))) m.authorId = true ↔
        (m.authorId ∈ c.allowFrom ++ store ∨ "*" ∈ c.allowFrom ++ store)) ∧
      (m.authorId ∈ store →
        isAllowed (effectiveAllowFrom c (some (.ok store))) m.authorId = true) ∧
      ((processMessage s env m).2 ≠ .dmDenied ↔
        (m.authorId ∈ c.allowFrom ++ store ∨ "*" ∈ c.allowFrom ++ store)) := by
  have hmem : effectiveAllowFrom c (some (.ok store)) = c.allowFrom ++ store := rfl
  have hiff := isAllowed_iff (c.allowFrom ++ store) m.authorId
  refine ⟨by rw [hmem]; exact hiff, ?_, ?_, ?_⟩
  · intro hx
    rw [hmem]
    exact hiff.mpr (Or.inl (List.mem_append.mpr (Or.inr hx)))
  · intro hne
    by_contra hnm
    have hfalse : isAllowed s.effectiveAllow m.authorId = false := by
      rw [heff, hmem]
      rcases h : isAllowed (c.allowFrom ++ store) m.authorId with _ | _
      · rfl
      · exact absurd (hiff.mp h) hnm
    have heq := processMessage_denied s env m h1 h2 h3 h4 hg
      (by rw [hpol]; decide) (by rw [hpol]; decide) hfalse
    exact hne (by rw [heq])
  · intro hm12
    have hallow : isAllowed s.effectiveAllow m.authorId = true := by
      rw [heff, hmem]
      exact hiff.mpr hm12
    have hgate : gatesPass s env m = true := by
      simp +decide [gatesPass, h1, h2, h3, h4, hg, hpol, hallow]
    rcases processMessage_gates_outcome s env m hgate with h | h | h | h <;> simp [h]

/-- Configuration whose static allowlist holds only `bob`. -/
def cfgC7 : FluxerCfg := ⟨some "allowlist", ["bob"], none, none, none⟩

/-- Session whose startup store read returned `[alice]`: `alice` grants
access purely through the store. -/
def sessC7 : Session := initSession cfgC7 (some "999") 0 "default" (some (.ok ["alice"]))

/-- C7 (witness): the statement applied to a sender present only in the
store. -/
theorem C7_allowlist_union_witness :
    (isAllowed (effectiveAllowFrom cfgC7 (some (.ok ["alice"]))) msgAlice.authorId = true ↔
        (msgAlice.authorId ∈ cfgC7.allowFrom ++ ["alice"] ∨
          "*" ∈ cfgC7.allowFrom ++ ["alice"])) ∧
      (msgAlice.authorId ∈ ["alice"] →
        isAllowed (effectiveAllowFrom cfgC7 (some (.ok ["alice"]))) msgAlice.authorId = true) ∧
      ((processMessage sessC7 baseEnv msgAlice).2 ≠ .dmDenied ↔
        (msgAlice.authorId ∈ cfgC7.allowFrom ++ ["alice"] ∨
          "*" ∈ cfgC7.allowFrom ++ ["alice"])) :=
  C7_allowlist_union cfgC7 ["alice"] sessC7 baseEnv msgAlice rfl rfl (by decide)
    (by decide) (by decide) (by decide) rfl

/-! ### Claim C3 — staged dispatch with fallback -/

/-- No effect before envelope formatting carries a dispatch payload. -/
theorem ctxOfEffect_preEffects (s : Session) (env : Env) (m : Msg) :
    ∀ a ∈ preEffects s env m, ctxOfEffect a = none := by
  have h := dispatchedCtxs_preEffects s env m
  unfold dispatchedCtxs at h
  exact List.filterMap_eq_nil_iff.mp h

/-- C3: when both buffered dispatcher stages are unavailable or fail (and the
envelope-format collaborators do not throw, those being outside the staged
chain), the handler ends through the last-resort stage without throwing; if
the system-event sink exists, a system event carrying the body truncated to
500 characters is enqueued; and every available dispatcher stage was
attempted (one payload handed to each present stage). -/
theorem C3_dispatch_fallback (s : Session) (env : Env) (m : Msg)
    (hgate : gatesPass s env m = true)
    (hfmt1 : env.resolveEnvelopeFormatOptions ≠ some .err)
    (hfmt2 : env.formatAgentEnvelope ≠ some .err)
    (hA : env.dispatchBlock = none ∨ env.dispatchBlock = some .err)
    (hB : env.dispatchMsg = none ∨ env.dispatchMsg = some .err) :
    (processMessage s env m).2 = .finishedC ∧
      (env.enqueueSystemEvent.isSome = true →
        Effect.enqueueSystemEvent
            (sysEventText m.authorUsername (cleanBodyOf s (jsTrim m.content)) 500)
            (routeStep env m.guildId.isNone m.channelId).1 ∈
          (processMessage s env m).1) ∧
      (dispatchedCtxs (processMessage s env m).1).length =
        ((if env.dispatchBlock.isSome then 1 else 0) +
          (if env.dispatchMsg.isSome then 1 else 0)) := by
  rw [processMessage_of_gatesPass s env m hgate]
  rcases henv : envelopeFormat env
      (fromLabelOf m.guildId.isNone m.authorUsername m.channelId)
      (cleanBodyOf s (jsTrim m.content)) with fb | _
  · simp only [mainPhase, henv]
    rcases hA with hA | hA <;> rcases hB with hB | hB <;>
      rcases hsink : env.enqueueSystemEvent with _ | r
    all_goals try rcases r with _ | _
    all_goals
      simp [mainDispatch, dispatchPhase, stageB, stageCEffects, hA, hB, hsink,
        dispatchedCtxs_append, dispatchedCtxs_preEffects, dispatchedCtxs, ctxOfEffect]
    all_goals exact ctxOfEffect_preEffects s env m
  · rcases envelopeFormat_err _ _ _ henv with h | h
    · exact absurd h hfmt1
    · exact absurd h hfmt2

/-- Environment where the block dispatcher throws, the fallback dispatcher is
absent, and the system-event sink exists. -/
def envC3 : Env :=
  { baseEnv with dispatchBlock := some .err, enqueueSystemEvent := some (.ok ()) }

/-- C3 (witness): the statement applied to a concrete direct message with a
failing stage a, an absent stage b, and a live sink. -/
theorem C3_dispatch_fallback_witness :
    (processMessage sessOpen envC3 msgA).2 = .finishedC ∧
      (envC3.enqueueSystemEvent.isSome = true →
        Effect.enqueueSystemEvent
            (sysEventText msgA.authorUsername (cleanBodyOf sessOpen (jsTrim msgA.content)) 500)
            (routeStep envC3 msgA.guildId.isNone msgA.channelId).1 ∈
          (processMessage sessOpen envC3 msgA).1) ∧
      (dispatchedCtxs (processMessage sessOpen envC3 msgA).1).length =
        ((if envC3.dispatchBlock.isSome then 1 else 0) +
          (if envC3.dispatchMsg.isSome then 1 else 0)) :=
  C3_dispatch_fallback sessOpen envC3 msgA (by decide) (by decide) (by decide)
    (Or.inr rfl) (Or.inl rfl)

/-! ### Claim C8 — pairing challenge gated by the created flag -/

/-- Modelled from the spec: the external pairing store behind
`upsertPairingRequest` is not part of this repository (only its caller is
under src/); §6 states its contract as "idempotent per sender; `created`
distinguishes first-issuance".  The store state is the list of senders with
a pending request; an upsert returns the sender's code, with `created = true`
exactly when the sender had no pending request, and records the request. -/
def upsertModel (pending : List String) (senderId code : String) :
    PairReply × List String :=
  if senderId ∈ pending then (⟨code, false⟩, pending)
  else (⟨code, true⟩, senderId :: pending)

/-- The environment in which the pairing-store upsert returns `r`. -/
def envWithUpsert (env : Env) (r : PairReply) : Env :=
  { env with upsertPairingRequest := some (.ok r) }

/-- C8: for a direct message under `pairing` policy from a non-allowed
sender, the handler upserts a pairing request and sends the instructional
reply containing the code exactly when the upsert reports `created = true`;
with the store modelled per its contract, the first challenge sends the
one-time reply and a second challenge for the same still-unapproved sender
performs the upsert but sends nothing; both messages are denied with no
dispatch attempt. -/
theorem C8_pairing_idempotent (s : Session) (env : Env) (m : Msg) (code : String)
    (hpol : dmPolicyOf s.cfg = "pairing")
    (hnal : isAllowed s.effectiveAllow m.authorId = false)
    (h1 : isSelf s m = false) (h2 : m.authorBot = false)
    (h3 : isStale s env m = false)
    (h4 : (jsTrim m.content == "" && m.attachments.isEmpty) = false)
    (hg : m.guildId = none) :
    ((upsertModel [] m.authorId code).1.created = true ∧
        (upsertModel (upsertModel [] m.authorId code).2 m.authorId code).1.created = false) ∧
      processMessage s (envWithUpsert env (upsertModel [] m.authorId code).1) m =
        ([.upsertPairing m.authorId m.authorUsername,
          .sendMsg m.channelId (pairingInstructions code) none none], .dmDenied) ∧
      processMessage s
          (envWithUpsert env
            (upsertModel (upsertModel [] m.authorId code).2 m.authorId code).1) m =
        ([.upsertPairing m.authorId m.authorUsername], .dmDenied) := by
  refine ⟨by simp [upsertModel], ?_, ?_⟩
  · have heq := processMessage_denied s (envWithUpsert env (upsertModel [] m.authorId code).1) m
      h1 h2 h3 h4 hg (by rw [hpol]; decide) (by rw [hpol]; decide) hnal
    rw [heq]
    simp +decide [hpol, pairingStep, envWithUpsert, upsertModel]
  · have heq := processMessage_denied s
      (envWithUpsert env
        (upsertModel (upsertModel [] m.authorId code).2 m.authorId code).1) m
      h1 h2 h3 h4 hg (by rw [hpol]; decide) (by rw [hpol]; decide) hnal
    rw [heq]
    simp +decide [hpol, pairingStep, envWithUpsert, upsertModel]

/-- Configuration with explicit `pairing` DM policy. -/
def cfgPairing : FluxerCfg := ⟨some "pairing", [], none, none, none⟩

/-- Session over `cfgPairing` with an empty allowlist snapshot. -/
def sessPairing : Session := initSession cfgPairing (some "999") 0 "default" none

/-- C8 (witness): the statement applied to a concrete unallowed sender and
code. -/
theorem C8_pairing_idempotent_witness :
    ((upsertModel [] msgAlice.authorId "CODE1").1.created = true ∧
        (upsertModel (upsertModel [] msgAlice.authorId "CODE1").2
            msgAlice.authorId "CODE1").1.created = false) ∧
      processMessage sessPairing
          (envWithUpsert baseEnv (upsertModel [] msgAlice.authorId "CODE1").1) msgAlice =
        ([.upsertPairing msgAlice.authorId msgAlice.authorUsername,
          .sendMsg msgAlice.channelId (pairingInstructions "CODE1") none none], .dmDenied) ∧
      processMessage sessPairing
          (envWithUpsert baseEnv
            (upsertModel (upsertModel [] msgAlice.authorId "CODE1").2
              msgAlice.authorId "CODE1").1) msgAlice =
        ([.upsertPairing msgAlice.authorId msgAlice.authorUsername], .dmDenied) :=
  C8_pairing_idempotent sessPairing baseEnv msgAlice "CODE1" rfl (by decide)
    (by decide) (by decide) (by decide) (by decide) rfl

/-! ### Claim C9 — media materialization -/

/-- With both media capabilities present, exactly the first attachment is
fetched. -/
theorem fetchUrls_mediaStep (env : Env) (c : FluxerCfg) (att : Attachment)
    (rest : List Attachment)
    (hf : env.fetchRemoteMedia.isSome = true)
    (hs : env.saveMediaBuffer.isSome = true) :
    (mediaStep env c (att :: rest)).1.filterMap fetchUrlOf = [att.url] := by
  rcases henf : env.fetchRemoteMedia with _ | fr
  · rw [henf] at hf; cases hf
  · rcases hens : env.saveMediaBuffer with _ | sv
    · rw [hens] at hs; cases hs
    · rcases fr with f | _
      · rcases sv with p | _ <;> simp [mediaStep, henf, hens, fetchUrlOf]
      · simp [mediaStep, henf, hens, fetchUrlOf]

/-- The dispatch chain performs no media fetches. -/
theorem fetchUrls_dispatchPhase (env : Env) (isDm : Bool) (ch sn cb sk : String)
    (ctx : CtxPayload) :
    (dispatchPhase env isDm ch sn cb sk ctx).1.filterMap fetchUrlOf = [] := by
  rcases hA : env.dispatchBlock with _ | r
  all_goals try rcases r with _ | _
  all_goals rcases hB : env.dispatchMsg with _ | r2
  all_goals try rcases r2 with _ | _
  all_goals rcases hq : env.enqueueSystemEvent with _ | r3
  all_goals try rcases r3 with _ | _
  all_goals rcases hdm : isDm with _ | _
  all_goals simp [dispatchPhase, stageB, stageCEffects, hA, hB, hq, fetchUrlOf]

/-- When the fetch succeeds, a save bounded by the configured byte ceiling is
attempted. -/
theorem saveMedia_mem_mediaStep (env : Env) (c : FluxerCfg) (att : Attachment)
    (rest : List Attachment) (f : Fetched)
    (hfok : env.fetchRemoteMedia = some (.ok f))
    (hs : env.saveMediaBuffer.isSome = true) :
    Effect.saveMedia (match f.contentType with
        | some ct => some ct
        | none => att.contentType) "inbound" (mediaMaxBytes c) ∈
      (mediaStep env c (att :: rest)).1 := by
  rcases hens : env.saveMediaBuffer with _ | sv
  · rw [hens] at hs; cases hs
  · rcases sv with p | _ <;> simp [mediaStep, hfok, hens]

/-- A fetch or save failure leaves the media path absent. -/
theorem mediaStep_path_none (env : Env) (c : FluxerCfg) (atts : List Attachment)
    (hfail : env.fetchRemoteMedia = some .err ∨ env.saveMediaBuffer = some .err) :
    (mediaStep env c atts).2 = none := by
  rcases atts with _ | ⟨att, rest⟩
  · rfl
  · rcases hfail with h | h
    · rcases hs : env.saveMediaBuffer with _ | sv <;> simp [mediaStep, h, hs]
    · rcases hfN : env.fetchRemoteMedia with _ | fr
      · rcases hs2 : env.saveMediaBuffer with _ | sv <;> simp [mediaStep, hfN, hs2]
      · rcases fr with f | _ <;> simp [mediaStep, h, hfN]

/-- C9: for a message carrying attachments that reaches the media step (both
media capabilities present, no envelope-format throw), only the first
attachment is fetched; the save is bounded by `mediaMaxMb * 1024 * 1024`
bytes (default 25); and a fetch or save failure is non-fatal: the media path
stays absent in every dispatched envelope and the handler still ends through
a dispatch stage. -/
theorem C9_media_bounded (s : Session) (env : Env) (m : Msg) (att : Attachment)
    (rest : List Attachment) (hatt : m.attachments = att :: rest)
    (hgate : gatesPass s env m = true)
    (hfmt1 : env.resolveEnvelopeFormatOptions ≠ some .err)
    (hfmt2 : env.formatAgentEnvelope ≠ some .err)
    (hf : env.fetchRemoteMedia.isSome = true)
    (hs : env.saveMediaBuffer.isSome = true) :
    ((processMessage s env m).1.filterMap fetchUrlOf = [att.url]) ∧
      mediaMaxBytes s.cfg = s.cfg.mediaMaxMb.getD 25 * 1024 * 1024 ∧
      (∀ f, env.fetchRemoteMedia = some (.ok f) →
        Effect.saveMedia (match f.contentType with
            | some ct => some ct
            | none => att.contentType) "inbound" (mediaMaxBytes s.cfg) ∈
          (processMessage s env m).1) ∧
      ((env.fetchRemoteMedia = some .err ∨ env.saveMediaBuffer = some .err) →
        (mediaStep env s.cfg m.attachments).2 = none ∧
          (∀ c ∈ dispatchedCtxs (processMessage s env m).1, c.MediaPath = none) ∧
          ((processMessage s env m).2 = .dispatchedA ∨
            (processMessage s env m).2 = .dispatchedB ∨
            (processMessage s env m).2 = .finishedC)) := by
  rw [processMessage_of_gatesPass s env m hgate]
  rcases henv : envelopeFormat env
      (fromLabelOf m.guildId.isNone m.authorUsername m.channelId)
      (cleanBodyOf s (jsTrim m.content)) with fb | _
  · refine ⟨?_, rfl, ?_, ?_⟩
    · simp only [mainPhase, henv, preEffects, List.append_assoc, List.filterMap_append]
      rw [hatt, fetchUrls_mediaStep env s.cfg att rest hf hs]
      simp [mainDispatch, fetchUrls_dispatchPhase, fetchUrlOf]
    · intro f hfok
      simp only [mainPhase, henv, preEffects, List.append_assoc]
      refine List.mem_append.mpr (Or.inl ?_)
      rw [hatt]
      exact saveMedia_mem_mediaStep env s.cfg att rest f hfok hs
    · intro hfail
      refine ⟨mediaStep_path_none env s.cfg m.attachments hfail, ?_, ?_⟩
      · intro c hc
        exact ((mainPhase_ctxs s env m m.guildId.isNone (jsTrim m.content)
            (eventTsOf env m) c hc).2.1).trans
          (mediaStep_path_none env s.cfg m.attachments hfail)
      · simp only [mainPhase, henv]
        exact dispatchPhase_outcome env m.guildId.isNone m.channelId m.authorUsername
          (cleanBodyOf s (jsTrim m.content)) (routeStep env m.guildId.isNone m.channelId).1
          (buildCtx m.guildId.isNone m fb (cleanBodyOf s (jsTrim m.content)) (jsTrim m.content)
            (routeStep env m.guildId.isNone m.channelId).1
            ((routeStep env m.guildId.isNone m.channelId).2.getD s.accountId)
            (fromLabelOf m.guildId.isNone m.authorUsername m.channelId) (eventTsOf env m)
            (mediaStep env s.cfg m.attachments).2)
  · rcases envelopeFormat_err _ _ _ henv with h | h
    · exact absurd h hfmt1
    · exact absurd h hfmt2

/-- Environment whose media fetch succeeds (no content type) and whose save
throws (for instance the byte ceiling is exceeded); dispatchers absent, sink
live. -/
def envC9 : Env :=
  { baseEnv with
    fetchRemoteMedia := some (.ok ⟨none⟩)
    saveMediaBuffer := some .err
    enqueueSystemEvent := some (.ok ()) }

/-- A direct message with two attachments. -/
def msgAtt : Msg :=
  ⟨"m3", "c1", "look", "u1", "Uma", false, none, none, none,
    [⟨"http://x/a.png", some "image/png", some "a.png"⟩,
     ⟨"http://x/b.png", none, none⟩]⟩

/-- C9 (witness): the statement applied to a concrete message whose save
fails: only the first attachment is fetched and dispatch proceeds without a
media path. -/
theorem C9_media_bounded_witness :
    ((processMessage sessOpen envC9 msgAtt).1.filterMap fetchUrlOf = ["http://x/a.png"]) ∧
      mediaMaxBytes sessOpen.cfg = sessOpen.cfg.mediaMaxMb.getD 25 * 1024 * 1024 ∧
      (∀ f, envC9.fetchRemoteMedia = some (.ok f) →
        Effect.saveMedia (match f.contentType with
            | some ct => some ct
            | none => (Attachment.mk "http://x/a.png" (some "image/png") (some "a.png")).contentType)
            "inbound" (mediaMaxBytes sessOpen.cfg) ∈
          (processMessage sessOpen envC9 msgAtt).1) ∧
      ((envC9.fetchRemoteMedia = some .err ∨ envC9.saveMediaBuffer = some .err) →
        (mediaStep envC9 sessOpen.cfg msgAtt.attachments).2 = none ∧
          (∀ c ∈ dispatchedCtxs (processMessage sessOpen envC9 msgAtt).1,
            c.MediaPath = none) ∧
          ((processMessage sessOpen envC9 msgAtt).2 = .dispatchedA ∨
            (processMessage sessOpen envC9 msgAtt).2 = .dispatchedB ∨
            (processMessage sessOpen envC9 msgAtt).2 = .finishedC)) :=
  C9_media_bounded sessOpen envC9 msgAtt
    ⟨"http://x/a.png", some "image/png", some "a.png"⟩
    [⟨"http://x/b.png", none, none⟩] rfl (by decide) (by decide) (by decide)
    (by decide) (by decide)

end Fluxer
